import Mathlib

/-!
Verification of the rubric / short-answer question data model and the
RPC client contract of the `core` package.

The development shallowly embeds the Python sources:

* `core/models/objective.py`  — the `Objective` enumeration;
* `core/models/grading_criteria.py` — `GradingCriteria` with its weight
  validator;
* `core/models/rubric.py` — `RubricType` presets and the `Rubric`
  aggregate (a mapping from `Objective` to `GradingCriteria`, embedded as
  an insertion-ordered association list, exactly the observable behaviour
  of a Python `dict`);
* `core/models/short_answer.py` — the active `ShortAnswerQuestion` class
  (whose `grade` delegates to the RPC client);
* `core/models/question.py` — the legacy module, whose `_serialize`
  differs from the active one in the key used for the question body;
* `core/client/client.py` — `RPCClient` (`payload`, `parse_response`,
  `_make_request`, `short_answer`), with the HTTP transport abstracted as
  a function from the request JSON to the decoded response mapping.

Python `float` weights are embedded as `ℚ`; raised exceptions are
embedded as `Except` errors.
-/

/-- Embedding of `core.errors.ValidationError`: a client-library error
carrying a message string. -/
structure ValidationError where
  message : String
deriving DecidableEq, Repr

/-- Embedding of `core.models.objective.Objective`: the fixed vocabulary of
grading dimensions. -/
inductive Objective where
  | FACTUAL
  | CLARITY
  | CREATIVITY
  | ANALYSIS
  | APPLICATION
  | EVIDENCE
  | REFLECTION
deriving DecidableEq, Repr

/-- The `value` of the enum member: the human-readable wire label of each
objective, as written in `objective.py`. -/
def Objective.value : Objective → String
  | .FACTUAL => "factual understanding"
  | .CLARITY => "clarity of writing"
  | .CREATIVITY => "creativity"
  | .ANALYSIS => "analytical skills"
  | .APPLICATION => "application of knowledge"
  | .EVIDENCE => "use of evidence"
  | .REFLECTION => "self reflection"

/-- Embedding of the enum call `Objective(label)`: resolves a wire label to
the member with that value, or fails (Python raises `ValueError`). -/
def Objective.fromLabel (label : String) : Option Objective :=
  if label = "factual understanding" then some .FACTUAL
  else if label = "clarity of writing" then some .CLARITY
  else if label = "creativity" then some .CREATIVITY
  else if label = "analytical skills" then some .ANALYSIS
  else if label = "application of knowledge" then some .APPLICATION
  else if label = "use of evidence" then some .EVIDENCE
  else if label = "self reflection" then some .REFLECTION
  else none

/-- Embedding of the Python expression `q % 1` on a (finite, rational-valued) float:
the fractional part of `q`, computed on the reduced fraction
representation so that it evaluates by kernel reduction.
`ratMod1_eq_zero_iff` below relates it to integrality. -/
def ratMod1 (q : ℚ) : ℚ := mkRat (q.num % (q.den : ℤ)) q.den

/-- Embedding of the Python expression `value * 2`, computed on the reduced
fraction representation so that it evaluates by kernel reduction
(`ℚ` multiplication in Mathlib is marked irreducible).
`ratDouble_eq` below shows it agrees with `q * 2`. -/
def ratDouble (q : ℚ) : ℚ := mkRat (q.num * 2) q.den

/-- Embedding of `core.models.grading_criteria.GradingCriteria`: an
objective paired with a numeric weight. -/
structure GradingCriteria where
  objective : Objective
  weight : ℚ
deriving DecidableEq, Repr

/-- Embedding of the `validate_weight` field validator: rejects
non-positive weights, then weights for which `(value * 2) % 1 != 0`
(returning the `ValueError` messages raised by the source). -/
def GradingCriteria.validate_weight (value : ℚ) : Except ValidationError ℚ :=
  if value ≤ 0 then .error ⟨"Weight must be greater than 0."⟩
  else if ratMod1 (ratDouble value) ≠ 0 then .error ⟨"Weight must be a multiple of 0.5"⟩
  else .ok value

/-- Embedding of the constructor call `GradingCriteria(objective, weight)`:
`__init__` runs the pydantic validator and re-raises its failure as a
`core.errors.ValidationError` (whose message we take to be the underlying
validator message). -/
def GradingCriteria.make (objective : Objective) (weight : ℚ) :
    Except ValidationError GradingCriteria :=
  (GradingCriteria.validate_weight weight).map fun w => ⟨objective, w⟩

example : GradingCriteria.make .FACTUAL 1 = .ok ⟨.FACTUAL, 1⟩ := rfl
example : (GradingCriteria.make .FACTUAL (mkRat 1 2)).isOk = true := rfl
example : (GradingCriteria.make .FACTUAL (mkRat 3 4)).isOk = false := rfl
example : (GradingCriteria.make .FACTUAL 0).isOk = false := rfl

/-- The executable doubling agrees with multiplication by 2 in `ℚ`. -/
theorem ratDouble_eq (q : ℚ) : ratDouble q = q * 2 := by
  rw [ratDouble, Rat.mkRat_eq_div]
  push_cast
  rw [mul_div_right_comm, Rat.num_div_den]

/-- The executable fractional part vanishes exactly on the integers. -/
theorem ratMod1_eq_zero_iff (q : ℚ) : ratMod1 q = 0 ↔ ∃ n : ℤ, q = (n : ℚ) := by
  rw [ratMod1, Rat.mkRat_eq_zero q.den_nz]
  constructor
  · intro h
    have hdvd : q.den ∣ q.num.natAbs := Int.natCast_dvd.mp (Int.dvd_of_emod_eq_zero h)
    have hgcd : Nat.gcd q.num.natAbs q.den = 1 := q.reduced
    have hone : q.den = 1 := Nat.dvd_one.mp (hgcd ▸ Nat.dvd_gcd hdvd dvd_rfl)
    exact ⟨q.num, ((Rat.den_eq_one_iff q).mp hone).symm⟩
  · rintro ⟨n, rfl⟩
    simp

/-- Embedding of `core.models.rubric.RubricType`: the enumeration of rubric
presets. -/
inductive RubricType where
  | FACTUAL_RUBRIC
  | ANALYTICAL_RUBRIC
  | CREATIVE_RUBRIC
  | APPLICATION_RUBRIC
  | COMPREHENSIVE_RUBRIC
  | COMMUNICATION_RUBRIC
  | CUSTOM_RUBRIC
deriving DecidableEq

/-- The label of the preset (first component of the value of each enum member). -/
def RubricType.label : RubricType → String
  | .FACTUAL_RUBRIC => "Factual Rubric"
  | .ANALYTICAL_RUBRIC => "Analytical Rubric"
  | .CREATIVE_RUBRIC => "Creative Rubric"
  | .APPLICATION_RUBRIC => "Application Rubric"
  | .COMPREHENSIVE_RUBRIC => "Comprehensive Rubric"
  | .COMMUNICATION_RUBRIC => "Communication Rubric"
  | .CUSTOM_RUBRIC => "Custom Rubric"

/-- The default `(objective, weight)` list of the preset (second component
of the value of each enum member, `_default_criteria` in the source). -/
def RubricType.default_criteria : RubricType → List (Objective × ℚ)
  | .FACTUAL_RUBRIC => [(.FACTUAL, 1), (.EVIDENCE, 1), (.CLARITY, 1)]
  | .ANALYTICAL_RUBRIC => [(.ANALYSIS, 1), (.EVIDENCE, 1), (.REFLECTION, 1)]
  | .CREATIVE_RUBRIC => [(.CREATIVITY, 1), (.CLARITY, 1), (.REFLECTION, 1)]
  | .APPLICATION_RUBRIC => [(.APPLICATION, 1), (.ANALYSIS, 1), (.FACTUAL, 1)]
  | .COMPREHENSIVE_RUBRIC => [(.FACTUAL, 1), (.ANALYSIS, 1), (.APPLICATION, 1), (.CREATIVITY, 1)]
  | .COMMUNICATION_RUBRIC => [(.CLARITY, 1), (.REFLECTION, 1), (.CREATIVITY, 1)]
  | .CUSTOM_RUBRIC => []

/-- Elementwise construction of `GradingCriteria` from an `(objective,
weight)` list, failing at the first invalid weight: the list comprehension
in the `RubricType.criteria` property. -/
def criteriaListOf : List (Objective × ℚ) → Except ValidationError (List GradingCriteria)
  | [] => .ok []
  | (o, w) :: rest => do
    let c ← GradingCriteria.make o w
    let cs ← criteriaListOf rest
    .ok (c :: cs)

/-- Embedding of the `RubricType.criteria` property: the default criteria
objects associated with the rubric type. -/
def RubricType.criteria (t : RubricType) : Except ValidationError (List GradingCriteria) :=
  criteriaListOf t.default_criteria

/-- Key update on an insertion-ordered association list, with exactly the
observable behaviour of `d[k] = v` on a Python `dict`: an existing key
keeps its position and gets the new value, a new key is appended. -/
def dictInsert {α β : Type} [DecidableEq α] : List (α × β) → α → β → List (α × β)
  | [], k, v => [(k, v)]
  | (k₁, v₁) :: rest, k, v =>
    if k₁ = k then (k, v) :: rest else (k₁, v₁) :: dictInsert rest k v

/-- Key lookup on an association list (`d[k]` / `k in d` on a Python
`dict`, first-occurrence semantics). -/
def dictFind {α β : Type} [DecidableEq α] : List (α × β) → α → Option β
  | [], _ => none
  | (k₁, v₁) :: rest, k => if k₁ = k then some v₁ else dictFind rest k

/-- Embedding of `core.models.rubric.Rubric`: a mapping from `Objective` to
`GradingCriteria` (embedded as an insertion-ordered association list, the
observable behaviour of the Python `dict`) plus the `_type` tag. -/
structure Rubric where
  criteria : List (Objective × GradingCriteria)
  _type : RubricType
deriving DecidableEq

/-- Embedding of the `Rubric.size` property: `len(self.criteria)`. -/
def Rubric.size (r : Rubric) : Nat := r.criteria.length

/-- Embedding of the `Rubric.rubric_type` property. -/
def Rubric.rubric_type (r : Rubric) : RubricType := r._type

/-- Embedding of `Rubric.add_criteria`: constructs a new `GradingCriteria`
(propagating its validation failure) and stores it under `objective`,
replacing any existing entry.  The `isinstance(objective, Objective)`
guard of the source is discharged by the Lean type of `objective`. -/
def Rubric.add_criteria (r : Rubric) (objective : Objective) (weight : ℚ) :
    Except ValidationError Rubric :=
  (GradingCriteria.make objective weight).map fun c =>
    ⟨dictInsert r.criteria objective c, r._type⟩

/-- Embedding of `Rubric.serialize`: one entry per criteria, keyed by the
wire label of the objective, valued by the weight (`float(...)` is the identity
on the `ℚ` embedding). -/
def Rubric.serialize (r : Rubric) : List (String × ℚ) :=
  r.criteria.map fun p => (p.1.value, p.2.weight)

/-- Embedding of the `Rubric.empty` classmethod: no criteria, and the
default `_type` of the constructor, `RubricType.CUSTOM_RUBRIC`. -/
def Rubric.empty : Rubric := ⟨[], .CUSTOM_RUBRIC⟩

/-- Build the criteria `dict` of `Rubric.from_rubric_type`: one entry per
default criteria object, keyed by its objective. -/
def criteriaDictOf (cs : List GradingCriteria) : List (Objective × GradingCriteria) :=
  cs.foldl (fun d c => dictInsert d c.objective c) []

/-- Embedding of the `Rubric.from_rubric_type` classmethod. -/
def Rubric.from_rubric_type (rubric_type : RubricType) : Except ValidationError Rubric :=
  (rubric_type.criteria).map fun cs => ⟨criteriaDictOf cs, rubric_type⟩

/-- The argument of `Rubric.from_dict`: either a genuine label→weight
mapping, or any other Python value (one without an `.items()` method),
tagged by a string so the embedding stays executable. -/
inductive RubricPayload where
  | mapping : List (String × ℚ) → RubricPayload
  | notMapping : String → RubricPayload
deriving DecidableEq

/-- The entry loop of the dict comprehension in `Rubric.from_dict`: for
each `(label, weight)` entry in order, resolve the label (a failure of
`Objective(label)` is the `ValueError` that `from_dict` converts into
`ValidationError("Invalid payload.")`), then construct the
`GradingCriteria` (whose `ValidationError` is not a `ValueError` and
therefore propagates unchanged). -/
def fromDictEntries :
    List (String × ℚ) → List (Objective × GradingCriteria) →
    Except ValidationError (List (Objective × GradingCriteria))
  | [], acc => .ok acc
  | (label, w) :: rest, acc =>
    match Objective.fromLabel label with
    | none => .error ⟨"Invalid payload."⟩
    | some o =>
      match GradingCriteria.make o w with
      | .error e => .error e
      | .ok c => fromDictEntries rest (dictInsert acc o c)

/-- Embedding of the `Rubric.from_dict` classmethod: a non-mapping payload
raises `AttributeError` at `payload.items()`, converted into the distinct
`ValidationError("Invalid payload provided. Must be a dictionary.")`; a
mapping is folded entrywise and tagged `CUSTOM_RUBRIC`. -/
def Rubric.from_dict (payload : RubricPayload) : Except ValidationError Rubric :=
  match payload with
  | .notMapping _ => .error ⟨"Invalid payload provided. Must be a dictionary."⟩
  | .mapping kvs => (fromDictEntries kvs []).map fun cs => ⟨cs, .CUSTOM_RUBRIC⟩

example : (Rubric.from_rubric_type .FACTUAL_RUBRIC).map Rubric.size = .ok 3 := rfl
example : (Rubric.from_rubric_type .FACTUAL_RUBRIC).map Rubric.serialize
    = .ok [("factual understanding", 1), ("use of evidence", 1), ("clarity of writing", 1)] := rfl

/-- A JSON-like value, the codomain of the serializers and the currency of
the RPC envelope (numbers are the `ℚ` embedding of Python floats/ints). -/
inductive Json where
  | str : String → Json
  | num : ℚ → Json
  | obj : List (String × Json) → Json
  | arr : List Json → Json

/-- Embedding of `core.models.short_answer.ShortAnswerQuestion`: body,
example answer and rubric, stored as given (no validation at
construction). -/
structure ShortAnswerQuestion where
  body : String
  example_answer : String
  rubric : Rubric

/-- The serialization of the rubric as a JSON object. -/
def rubricJson (r : Rubric) : Json :=
  .obj (r.serialize.map fun p => (p.1, Json.num p.2))

/-- Embedding of `ShortAnswerQuestion._is_valid` of `short_answer.py` (the
identical method appears in `question.py`): raises on an empty rubric
first, then on an empty body or example answer (`bool(self.body and
self.example_answer)` is false exactly when either string is empty). -/
def ShortAnswerQuestion._is_valid (q : ShortAnswerQuestion) : Except ValidationError Unit :=
  if q.rubric.size = 0 then .error ⟨"Rubric must have at least one criteria."⟩
  else if q.body = "" ∨ q.example_answer = "" then
    .error ⟨"Question body and example answer cannot be empty."⟩
  else .ok ()

/-- Embedding of `ShortAnswerQuestion._serialize` of `short_answer.py`
(the class whose `grade` performs the RPC call): note the source maps the
question body under the key `"question"`. -/
def ShortAnswerQuestion._serialize (q : ShortAnswerQuestion) : Json :=
  .obj [("question", .str q.body),
        ("example_answer", .str q.example_answer),
        ("rubric", rubricJson q.rubric)]

namespace QuestionModule

/-- Embedding of `ShortAnswerQuestion._serialize` of the legacy module
`question.py`: the question body is mapped under the key `"body"`. -/
def _serialize (q : ShortAnswerQuestion) : Json :=
  .obj [("body", .str q.body),
        ("example_answer", .str q.example_answer),
        ("rubric", rubricJson q.rubric)]

end QuestionModule

namespace RPCClient

/-- Embedding of `core.client.client.RPCClient`. The HTTP transport
(`requests.post` followed by `response.json()`) is abstracted as a function
from the posted JSON body to the decoded response mapping; endpoint and
credential resolution are connection plumbing with no effect on the
request/response contract modelled here. -/
def Transport : Type := Json → List (String × Json)

/-- Embedding of `RPCClient.payload`: the fixed JSON-RPC envelope. -/
def payload (method : String) (params : Json) : Json :=
  .obj [("id", .num 1), ("jsonrpc", .str "2.0"), ("method", .str method), ("params", params)]

/-- Failures of the response path of the client: a broad `Exception` carrying
the server-supplied error payload, a `KeyError` for a missing field, and a
`TypeError` for indexing a non-mapping result with a string key. -/
inductive RPCError where
  | exc : Json → RPCError
  | keyError : String → RPCError
  | typeError : RPCError

/-- Embedding of `RPCClient.parse_response` applied to the decoded
response: if the mapping contains an `"error"` key the client raises an
`Exception` carrying that error payload; otherwise it returns
`response_data["result"]` (a missing `"result"` key is a `KeyError`). -/
def parse_response (response_data : List (String × Json)) : Except RPCError Json :=
  match dictFind response_data "error" with
  | some e => .error (.exc e)
  | none =>
    match dictFind response_data "result" with
    | some r => .ok r
    | none => .error (.keyError "result")

/-- Embedding of `RPCClient._make_request`: build the envelope, post it
through the transport, and parse the decoded response. -/
def _make_request (send : Transport) (method : String) (params : Json) :
    Except RPCError Json :=
  parse_response (send (payload method params))

/-- Embedding of `result[key]` on the decoded result value. -/
def Json.getItem (j : Json) (key : String) : Except RPCError Json :=
  match j with
  | .obj kvs =>
    match dictFind kvs key with
    | some v => .ok v
    | none => .error (.keyError key)
  | _ => .error .typeError

/-- Embedding of `RPCClient.short_answer`: one request with method
`"short_answer"` and positional params `[data, answer]`, then extraction
of `feedback` and `score` from the result (in that order, each a
propagated `KeyError` when absent). -/
def short_answer (send : Transport) (data : Json) (answer : String) :
    Except RPCError (Json × Json) := do
  let result ← _make_request send "short_answer" (.arr [data, .str answer])
  let feedback ← Json.getItem result "feedback"
  let score ← Json.getItem result "score"
  return (feedback, score)

end RPCClient

/-- Embedding of `ShortAnswerQuestion.grade` of `short_answer.py`: it
serializes the question (with no call to `_is_valid`) and delegates to
`RPCClient.short_answer` with the serialized question and the answer. -/
def ShortAnswerQuestion.grade (q : ShortAnswerQuestion) (answer : String)
    (send : RPCClient.Transport) : Except RPCClient.RPCError (Json × Json) :=
  RPCClient.short_answer send q._serialize answer

/-- A heap of `Rubric` objects, modelling Python object identity for the
aliasing behaviour of the mutable default argument of
`ShortAnswerQuestion.__init__`: a cell index is an object reference. -/
structure Heap where
  cells : List Rubric

/-- Dereference a rubric object. -/
def Heap.get (h : Heap) (ref : Nat) : Rubric := h.cells.getD ref Rubric.empty

/-- In-place mutation of a rubric object. -/
def Heap.set (h : Heap) (ref : Nat) (r : Rubric) : Heap := ⟨h.cells.set ref r⟩

/-- The heap as it stands after the `def __init__` line of
`short_answer.py` has been evaluated: Python evaluates the default
argument expression `Rubric.empty()` exactly once, at function definition
time, allocating a single shared `Rubric` object. -/
def defaultArgHeap : Heap := ⟨[Rubric.empty]⟩

/-- The reference to that one shared default `Rubric` object. -/
def defaultArgRef : Nat := 0

/-- A `ShortAnswerQuestion` as it lives on the Python heap: the `rubric`
attribute is a reference, not a value. -/
structure SAQRef where
  body : String
  example_answer : String
  rubricRef : Nat

/-- Embedding of the constructor call `ShortAnswerQuestion(body,
example_answer[, rubric])`: omitting the `rubric` argument stores the
shared default reference. -/
def mkShortAnswerQuestion (body example_answer : String) (rubric : Option Nat) : SAQRef :=
  ⟨body, example_answer, rubric.getD defaultArgRef⟩

/-- Embedding of `ShortAnswerQuestion.add_criteria` on the heap: delegates
to `Rubric.add_criteria`, mutating the referenced rubric object. -/
def SAQRef.add_criteria (q : SAQRef) (h : Heap) (objective : Objective) (weight : ℚ) :
    Except ValidationError Heap :=
  ((h.get q.rubricRef).add_criteria objective weight).map (h.set q.rubricRef)

/-- The rubric size observed through a question on the heap. -/
def SAQRef.rubricSize (q : SAQRef) (h : Heap) : Nat := (h.get q.rubricRef).size

/-- Embedding of `ShortAnswerQuestion._serialize` (the `short_answer.py`
version) observed through a question on the heap. -/
def SAQRef.serializeAt (q : SAQRef) (h : Heap) : Json :=
  .obj [("question", .str q.body),
        ("example_answer", .str q.example_answer),
        ("rubric", rubricJson (h.get q.rubricRef))]

/-- A `GradingCriteria` object on the Python heap: the value together with
its allocation number.  Every evaluation of `GradingCriteria(...)`
allocates a fresh object, so distinct allocation numbers are distinct
objects even when the values coincide. -/
structure GCObj where
  criteria : GradingCriteria
  objId : Nat
deriving DecidableEq

/-- Embedding of `Rubric.add_criteria` instrumented with object identity:
`GradingCriteria(objective=objective, weight=weight)` allocates a fresh
object (consuming the allocation counter) and the dict update stores it
under the key of its objective. -/
def addCriteriaTracked (cells : List (Objective × GCObj)) (objective : Objective)
    (weight : ℚ) (ctr : Nat) :
    Except ValidationError (List (Objective × GCObj) × Nat) :=
  (GradingCriteria.make objective weight).map fun c =>
    (dictInsert cells objective ⟨c, ctr⟩, ctr + 1)

/-- A weight that passes `validate_weight`: it fails neither of the two
checks of the validator. -/
def validWeight (w : ℚ) : Prop := ¬ w ≤ 0 ∧ ratMod1 (ratDouble w) = 0

instance (w : ℚ) : Decidable (validWeight w) := by
  unfold validWeight
  infer_instance

/-- On a valid weight the validator is the identity, so the constructor
returns the criteria as given. -/
theorem GradingCriteria.make_ok (o : Objective) {w : ℚ} (h : validWeight w) :
    GradingCriteria.make o w = .ok ⟨o, w⟩ := by
  unfold GradingCriteria.make GradingCriteria.validate_weight
  rw [if_neg h.1, if_neg (fun hn => hn h.2)]
  rfl

/-- On an invalid weight the constructor fails. -/
theorem GradingCriteria.make_err (o : Objective) {w : ℚ} (h : ¬ validWeight w) :
    ∃ e, GradingCriteria.make o w = .error e := by
  unfold GradingCriteria.make GradingCriteria.validate_weight
  by_cases h1 : w ≤ 0
  · exact ⟨_, by rw [if_pos h1]; rfl⟩
  · have h2 : ratMod1 (ratDouble w) ≠ 0 := fun h0 => h ⟨h1, h0⟩
    exact ⟨_, by rw [if_neg h1, if_pos h2]; rfl⟩

/-- Restatement of `validWeight` in the vocabulary of the specification: positive and
with `2w` an integer. -/
theorem validWeight_iff (w : ℚ) :
    validWeight w ↔ ¬ (w ≤ 0 ∨ ¬ ∃ n : ℤ, 2 * w = (n : ℚ)) := by
  unfold validWeight
  rw [ratMod1_eq_zero_iff, ratDouble_eq]
  push_neg
  constructor
  · rintro ⟨h1, n, hn⟩
    exact ⟨h1, n, by rw [mul_comm]; exact hn⟩
  · rintro ⟨h1, n, hn⟩
    exact ⟨h1, n, by rw [mul_comm]; exact hn⟩

/-- Updating an existing key is found at that key with the new value. -/
theorem dictFind_dictInsert_self {α β : Type} [DecidableEq α]
    (l : List (α × β)) (k : α) (v : β) :
    dictFind (dictInsert l k v) k = some v := by
  induction l with
  | nil => simp [dictInsert, dictFind]
  | cons p rest ih =>
    obtain ⟨k₁, v₁⟩ := p
    by_cases hk : k₁ = k
    · simp [dictInsert, dictFind, hk]
    · simp [dictInsert, dictFind, hk, ih]

/-- Updating an existing key does not change the number of entries. -/
theorem length_dictInsert_mem {α β : Type} [DecidableEq α]
    {l : List (α × β)} {k : α} (v : β) (h : (dictFind l k).isSome) :
    (dictInsert l k v).length = l.length := by
  induction l with
  | nil => simp [dictFind] at h
  | cons p rest ih =>
    obtain ⟨k₁, v₁⟩ := p
    by_cases hk : k₁ = k
    · simp [dictInsert, hk]
    · rw [dictFind, if_neg hk] at h
      simp [dictInsert, hk, ih h]

/-- Claim C2: constructing a `GradingCriteria` (for any objective) fails
with a `ValidationError` if and only if the weight is non-positive or its
double is not an integer; otherwise construction succeeds and stores the
weight as given. -/
theorem grading_criteria_weight_validation (o : Objective) (w : ℚ) :
    ((∃ e, GradingCriteria.make o w = .error e) ↔ (w ≤ 0 ∨ ¬ ∃ n : ℤ, 2 * w = (n : ℚ)))
    ∧ (¬ (w ≤ 0 ∨ ¬ ∃ n : ℤ, 2 * w = (n : ℚ)) → GradingCriteria.make o w = .ok ⟨o, w⟩) := by
  constructor
  · constructor
    · rintro ⟨e, he⟩
      by_contra hcon
      rw [GradingCriteria.make_ok o ((validWeight_iff w).mpr hcon)] at he
      cases he
    · intro hbad
      exact GradingCriteria.make_err o fun hv => ((validWeight_iff w).mp hv) hbad
  · intro hgood
    exact GradingCriteria.make_ok o ((validWeight_iff w).mpr hgood)

/-- Witness for C2 at the objective `FACTUAL` and the weight `1`. -/
theorem grading_criteria_weight_validation_witness :
    ¬ ((1 : ℚ) ≤ 0 ∨ ¬ ∃ n : ℤ, 2 * (1 : ℚ) = (n : ℚ))
    ∧ GradingCriteria.make .FACTUAL 1 = .ok ⟨.FACTUAL, 1⟩ := by
  have h : ¬ ((1 : ℚ) ≤ 0 ∨ ¬ ∃ n : ℤ, 2 * (1 : ℚ) = (n : ℚ)) := by
    push_neg
    exact ⟨by norm_num, 2, by norm_num⟩
  exact ⟨h, (grading_criteria_weight_validation .FACTUAL 1).2 h⟩

/-- Claim C6: `_is_valid` fails whenever the rubric is empty, fails
whenever the body or the example answer is the empty string, and succeeds
when the rubric is non-empty and both strings are non-empty; the
empty-rubric failure is checked first, so it is the one reported when both
conditions are violated. -/
theorem short_answer_validate_spec (q : ShortAnswerQuestion) :
    (q.rubric.size = 0 →
      q._is_valid = .error ⟨"Rubric must have at least one criteria."⟩)
    ∧ (q.rubric.size ≠ 0 → (q.body = "" ∨ q.example_answer = "") →
      q._is_valid = .error ⟨"Question body and example answer cannot be empty."⟩)
    ∧ (q.rubric.size ≠ 0 → q.body ≠ "" → q.example_answer ≠ "" →
      q._is_valid = .ok ()) := by
  refine ⟨?_, ?_, ?_⟩ <;> intros <;> simp_all [ShortAnswerQuestion._is_valid]

/-- Witness for C6 at a question violating both conditions: the
empty-rubric error is the one reported. -/
theorem short_answer_validate_spec_witness :
    (ShortAnswerQuestion.mk "" "" Rubric.empty).rubric.size = 0
    ∧ (ShortAnswerQuestion.mk "" "" Rubric.empty)._is_valid
        = .error ⟨"Rubric must have at least one criteria."⟩ :=
  ⟨rfl, (short_answer_validate_spec ⟨"", "", Rubric.empty⟩).1 rfl⟩

/-- Claim C1 (evaluation at the failing input): the active
`short_answer.py` serializer maps the question body under the key
`"question"`, not `"body"`; the legacy `question.py` serializer — the
behaviour the specification, the tests and `from_dict` describe — maps it
under `"body"`. -/
theorem serialize_wire_keys_eval :
    ∃ r, Rubric.from_rubric_type .FACTUAL_RUBRIC = .ok r
    ∧ ShortAnswerQuestion._serialize ⟨"What is the capital of Australia?", "Canberra", r⟩
      = Json.obj [("question", .str "What is the capital of Australia?"),
                  ("example_answer", .str "Canberra"),
                  ("rubric", .obj [("factual understanding", .num 1),
                                   ("use of evidence", .num 1),
                                   ("clarity of writing", .num 1)])]
    ∧ QuestionModule._serialize ⟨"What is the capital of Australia?", "Canberra", r⟩
      = Json.obj [("body", .str "What is the capital of Australia?"),
                  ("example_answer", .str "Canberra"),
                  ("rubric", .obj [("factual understanding", .num 1),
                                   ("use of evidence", .num 1),
                                   ("clarity of writing", .num 1)])] :=
  ⟨_, rfl, rfl, rfl⟩

/-- Claim C5: `grade` serializes the question with no call to the
`_is_valid` gate and delegates to the transport with the JSON-RPC envelope
for method `"short_answer"` and positional params `[serialized question,
answer]`, returning the `(feedback, score)` pair extracted from the
result; in particular a question with an empty rubric and empty body is
still serialized, handed to the transport, and graded. -/
theorem grade_delegates (q : ShortAnswerQuestion) (answer : String)
    (send : RPCClient.Transport) :
    (q.grade answer send
      = (RPCClient.parse_response (send (RPCClient.payload "short_answer"
          (Json.arr [q._serialize, Json.str answer])))).bind fun result =>
          (RPCClient.Json.getItem result "feedback").bind fun feedback =>
          (RPCClient.Json.getItem result "score").bind fun score =>
            pure (feedback, score))
    ∧ ShortAnswerQuestion.grade ⟨"", "", Rubric.empty⟩ "some answer"
        (fun _ => [("result", .obj [("feedback", .str "good job"),
                                    ("score", .num (mkRat 9 10))])])
      = .ok (.str "good job", .num (mkRat 9 10)) :=
  ⟨rfl, rfl⟩

/-- Computation rule for `Except.bind` on a success. -/
theorem exceptBind_ok {ε α β : Type} (a : α) (f : α → Except ε β) :
    (Except.ok (ε := ε) a).bind f = f a := rfl

/-- Computation rule for `Except.bind` on a failure. -/
theorem exceptBind_error {ε α β : Type} (e : ε) (f : α → Except ε β) :
    (Except.error (α := α) e).bind f = (Except.error (α := β) e) := rfl

/-- Claim C10: a decoded response containing an `"error"` key makes the
client raise with exactly the server-supplied error payload (in particular
`{"error": "bad request"}` raises with `"bad request"`); otherwise the
`"result"` field is returned, and `short_answer` returns the
`(feedback, score)` pair from the result, propagating a `KeyError` when
either field is absent. -/
theorem rpc_response_handling :
    (∀ (d : List (String × Json)) (e : Json), dictFind d "error" = some e →
      RPCClient.parse_response d = .error (.exc e))
    ∧ RPCClient.parse_response [("error", .str "bad request")]
        = .error (.exc (.str "bad request"))
    ∧ (∀ (d : List (String × Json)) (r : Json), dictFind d "error" = none →
      dictFind d "result" = some r → RPCClient.parse_response d = .ok r)
    ∧ (∀ (kvs : List (String × Json)) (f s data : Json) (answer : String),
      dictFind kvs "feedback" = some f → dictFind kvs "score" = some s →
      RPCClient.short_answer (fun _ => [("result", .obj kvs)]) data answer = .ok (f, s))
    ∧ (∀ (kvs : List (String × Json)) (data : Json) (answer : String),
      dictFind kvs "feedback" = none →
      RPCClient.short_answer (fun _ => [("result", .obj kvs)]) data answer
        = .error (.keyError "feedback"))
    ∧ (∀ (kvs : List (String × Json)) (f data : Json) (answer : String),
      dictFind kvs "feedback" = some f → dictFind kvs "score" = none →
      RPCClient.short_answer (fun _ => [("result", .obj kvs)]) data answer
        = .error (.keyError "score")) := by
  refine ⟨?_, rfl, ?_, ?_, ?_, ?_⟩
  · intro d e h
    unfold RPCClient.parse_response
    rw [h]
  · intro d r h1 h2
    unfold RPCClient.parse_response
    rw [h1, h2]
  · intro kvs f s data answer h1 h2
    show ((RPCClient.Json.getItem (Json.obj kvs) "feedback").bind fun fb =>
      (RPCClient.Json.getItem (Json.obj kvs) "score").bind fun sc => pure (fb, sc)) = _
    simp [RPCClient.Json.getItem, h1, h2, exceptBind_ok]
    rfl
  · intro kvs data answer h1
    show ((RPCClient.Json.getItem (Json.obj kvs) "feedback").bind fun fb =>
      (RPCClient.Json.getItem (Json.obj kvs) "score").bind fun sc => pure (fb, sc)) = _
    simp [RPCClient.Json.getItem, h1, exceptBind_error]
  · intro kvs f data answer h1 h2
    show ((RPCClient.Json.getItem (Json.obj kvs) "feedback").bind fun fb =>
      (RPCClient.Json.getItem (Json.obj kvs) "score").bind fun sc => pure (fb, sc)) = _
    simp [RPCClient.Json.getItem, h1, h2, exceptBind_ok, exceptBind_error]

/-- Witness for C10: a concrete success response yields the
`(feedback, score)` pair. -/
theorem rpc_response_handling_witness :
    dictFind [("feedback", Json.str "good job"), ("score", Json.num (mkRat 9 10))]
        "feedback" = some (Json.str "good job")
    ∧ dictFind [("feedback", Json.str "good job"), ("score", Json.num (mkRat 9 10))]
        "score" = some (Json.num (mkRat 9 10))
    ∧ RPCClient.short_answer
        (fun _ => [("result", .obj [("feedback", Json.str "good job"),
                                    ("score", Json.num (mkRat 9 10))])])
        (Json.str "data") "an answer"
      = .ok (Json.str "good job", Json.num (mkRat 9 10)) :=
  ⟨rfl, rfl, rpc_response_handling.2.2.2.1
    [("feedback", Json.str "good job"), ("score", Json.num (mkRat 9 10))]
    (Json.str "good job") (Json.num (mkRat 9 10)) (Json.str "data") "an answer" rfl rfl⟩

/-- The entry loop of `from_dict` fails on any entry list containing an
unknown label (with whatever error is reached first). -/
theorem fromDictEntries_error_of_unknown (kvs : List (String × ℚ))
    (acc : List (Objective × GradingCriteria))
    (h : ∃ p ∈ kvs, Objective.fromLabel p.1 = none) :
    ∃ e, fromDictEntries kvs acc = .error e := by
  induction kvs generalizing acc with
  | nil => simp at h
  | cons hd rest ih =>
    obtain ⟨p, hp, hnone⟩ := h
    obtain ⟨label, w⟩ := hd
    cases hlab : Objective.fromLabel label with
    | none => exact ⟨⟨"Invalid payload."⟩, by simp [fromDictEntries, hlab]⟩
    | some o =>
      cases hmake : GradingCriteria.make o w with
      | error e => exact ⟨e, by simp [fromDictEntries, hlab, hmake]⟩
      | ok c =>
        have hp' : p ∈ rest := by
          rcases List.mem_cons.mp hp with heq | hmem
          · rw [heq] at hnone
            rw [hnone] at hlab
            cases hlab
          · exact hmem
        obtain ⟨e, he⟩ := ih (dictInsert acc o c) ⟨p, hp', hnone⟩
        exact ⟨e, by simp [fromDictEntries, hlab, hmake, he]⟩

/-- The entry loop of `from_dict` succeeds when every label is known and
every weight is valid. -/
theorem fromDictEntries_ok (kvs : List (String × ℚ))
    (acc : List (Objective × GradingCriteria))
    (h : ∀ p ∈ kvs, (Objective.fromLabel p.1).isSome ∧ validWeight p.2) :
    ∃ cs, fromDictEntries kvs acc = .ok cs := by
  induction kvs generalizing acc with
  | nil => exact ⟨acc, rfl⟩
  | cons hd rest ih =>
    obtain ⟨label, w⟩ := hd
    obtain ⟨hsome, hval⟩ := h (label, w) (List.mem_cons_self _ _)
    obtain ⟨o, ho⟩ := Option.isSome_iff_exists.mp hsome
    obtain ⟨cs, hcs⟩ :=
      ih (dictInsert acc o ⟨o, w⟩) fun p hp => h p (List.mem_cons_of_mem _ hp)
    exact ⟨cs, by simp [fromDictEntries, ho, GradingCriteria.make_ok o hval, hcs]⟩

/-- Claim C9: `from_dict` fails with a `ValidationError` on every mapping
containing a label outside the `Objective` vocabulary; it fails with the
distinct dictionary-shape `ValidationError` on every non-mapping input;
and on mappings with only known labels and valid weights it succeeds with
the `CUSTOM_RUBRIC` tag. -/
theorem from_dict_error_handling :
    (∀ kvs : List (String × ℚ), (∃ p ∈ kvs, Objective.fromLabel p.1 = none) →
      ∃ e, Rubric.from_dict (.mapping kvs) = .error e)
    ∧ (∀ s, Rubric.from_dict (.notMapping s)
        = .error ⟨"Invalid payload provided. Must be a dictionary."⟩)
    ∧ ((⟨"Invalid payload provided. Must be a dictionary."⟩ : ValidationError)
        ≠ ⟨"Invalid payload."⟩)
    ∧ (∀ kvs : List (String × ℚ),
      (∀ p ∈ kvs, (Objective.fromLabel p.1).isSome ∧ validWeight p.2) →
      ∃ r, Rubric.from_dict (.mapping kvs) = .ok r ∧ r._type = .CUSTOM_RUBRIC) := by
  refine ⟨?_, fun s => rfl, by decide, ?_⟩
  · intro kvs h
    obtain ⟨e, he⟩ := fromDictEntries_error_of_unknown kvs [] h
    exact ⟨e, by simp only [Rubric.from_dict]; rw [he]; rfl⟩
  · intro kvs h
    obtain ⟨cs, hcs⟩ := fromDictEntries_ok kvs [] h
    exact ⟨⟨cs, .CUSTOM_RUBRIC⟩, by simp only [Rubric.from_dict]; rw [hcs]; rfl, rfl⟩

/-- Witness for C9 at the singleton payload with the unknown label
`"bogus"`. -/
theorem from_dict_error_handling_witness :
    (∃ p ∈ [(("bogus" : String), (1 : ℚ))], Objective.fromLabel p.1 = none)
    ∧ ∃ e, Rubric.from_dict (.mapping [("bogus", 1)]) = .error e := by
  have h : ∃ p ∈ [(("bogus" : String), (1 : ℚ))], Objective.fromLabel p.1 = none :=
    ⟨("bogus", 1), List.mem_singleton_self _, rfl⟩
  exact ⟨h, from_dict_error_handling.1 [("bogus", 1)] h⟩

/-- Claim C3: for every rubric built from a preset, feeding its
serialization back through `from_dict` succeeds and reproduces the size
and the weight stored under every objective, while the tag becomes
`CUSTOM_RUBRIC` instead of the original preset. -/
theorem preset_round_trip (t : RubricType) :
    ∃ r r', Rubric.from_rubric_type t = .ok r
    ∧ Rubric.from_dict (.mapping r.serialize) = .ok r'
    ∧ r'.size = r.size
    ∧ (∀ o : Objective, (dictFind r'.criteria o).map GradingCriteria.weight
        = (dictFind r.criteria o).map GradingCriteria.weight)
    ∧ r'._type = .CUSTOM_RUBRIC := by
  cases t <;> exact ⟨_, _, rfl, rfl, rfl, fun o => by cases o <;> rfl, rfl⟩

/-- Claim C8: every preset other than Custom materializes into a rubric
whose size is the length of its default list, in which every default
`(objective, weight)` pair is stored with exactly that weight, tagged with
the preset; and the empty rubric has size `0` and tag Custom. -/
theorem preset_rubric_contents (t : RubricType) (h : t ≠ .CUSTOM_RUBRIC) :
    (∃ r, Rubric.from_rubric_type t = .ok r
      ∧ r.size = t.default_criteria.length
      ∧ (∀ p ∈ t.default_criteria, dictFind r.criteria p.1 = some ⟨p.1, p.2⟩)
      ∧ r._type = t)
    ∧ Rubric.empty.size = 0 ∧ Rubric.empty._type = .CUSTOM_RUBRIC := by
  refine ⟨?_, rfl, rfl⟩
  cases t
  all_goals first
    | exact absurd rfl h
    | exact ⟨_, rfl, rfl, by decide, rfl⟩

/-- Witness for C8 at the Factual preset. -/
theorem preset_rubric_contents_witness :
    RubricType.FACTUAL_RUBRIC ≠ RubricType.CUSTOM_RUBRIC
    ∧ ((∃ r, Rubric.from_rubric_type .FACTUAL_RUBRIC = .ok r
        ∧ r.size = (RubricType.FACTUAL_RUBRIC).default_criteria.length
        ∧ (∀ p ∈ (RubricType.FACTUAL_RUBRIC).default_criteria,
            dictFind r.criteria p.1 = some ⟨p.1, p.2⟩)
        ∧ r._type = .FACTUAL_RUBRIC)
      ∧ Rubric.empty.size = 0 ∧ Rubric.empty._type = .CUSTOM_RUBRIC) :=
  ⟨by decide, preset_rubric_contents .FACTUAL_RUBRIC (by decide)⟩

/-- Claim C7: re-adding a criteria under an objective already present
leaves the rubric size as it was after the first call, stores the second
weight, and stores it in a freshly allocated `GradingCriteria` object,
distinct (by allocation number) from the object stored by the first
call. -/
theorem add_criteria_key_idempotence (cells : List (Objective × GCObj))
    (o : Objective) (w1 w2 : ℚ) (ctr : Nat)
    (h1 : validWeight w1) (h2 : validWeight w2) :
    ∃ cells1 cells2 c1 c2,
      addCriteriaTracked cells o w1 ctr = .ok (cells1, ctr + 1)
      ∧ addCriteriaTracked cells1 o w2 (ctr + 1) = .ok (cells2, ctr + 2)
      ∧ cells2.length = cells1.length
      ∧ dictFind cells1 o = some c1
      ∧ dictFind cells2 o = some c2
      ∧ c2.criteria.weight = w2
      ∧ c2.objId ≠ c1.objId := by
  refine ⟨dictInsert cells o ⟨⟨o, w1⟩, ctr⟩,
    dictInsert (dictInsert cells o ⟨⟨o, w1⟩, ctr⟩) o ⟨⟨o, w2⟩, ctr + 1⟩,
    ⟨⟨o, w1⟩, ctr⟩, ⟨⟨o, w2⟩, ctr + 1⟩, ?_, ?_, ?_, ?_, ?_, rfl, ?_⟩
  · unfold addCriteriaTracked
    rw [GradingCriteria.make_ok o h1]
    rfl
  · unfold addCriteriaTracked
    rw [GradingCriteria.make_ok o h2]
    rfl
  · exact length_dictInsert_mem _ (by rw [dictFind_dictInsert_self]; rfl)
  · exact dictFind_dictInsert_self _ _ _
  · exact dictFind_dictInsert_self _ _ _
  · simp

/-- Witness for C7 on the empty rubric with weights `1` and `0.5`. -/
theorem add_criteria_key_idempotence_witness :
    validWeight 1 ∧ validWeight (mkRat 1 2)
    ∧ ∃ cells1 cells2 c1 c2,
      addCriteriaTracked [] Objective.FACTUAL 1 0 = .ok (cells1, 0 + 1)
      ∧ addCriteriaTracked cells1 Objective.FACTUAL (mkRat 1 2) (0 + 1) = .ok (cells2, 0 + 2)
      ∧ cells2.length = cells1.length
      ∧ dictFind cells1 Objective.FACTUAL = some c1
      ∧ dictFind cells2 Objective.FACTUAL = some c2
      ∧ c2.criteria.weight = mkRat 1 2
      ∧ c2.objId ≠ c1.objId :=
  ⟨by decide, by decide,
    add_criteria_key_idempotence [] .FACTUAL 1 (mkRat 1 2) 0 (by decide) (by decide)⟩

/-- Claim C4: two questions constructed without a rubric argument hold one
and the same shared default `Rubric` object (the default argument is
evaluated once, at definition time), so an `add_criteria` through the
first question changes the rubric size and the serialization observed
through the second question. -/
theorem default_rubric_shared (b1 e1 b2 e2 : String) :
    (mkShortAnswerQuestion b1 e1 none).rubricRef
        = (mkShortAnswerQuestion b2 e2 none).rubricRef
    ∧ (mkShortAnswerQuestion b2 e2 none).rubricSize defaultArgHeap = 0
    ∧ ∃ h1, (mkShortAnswerQuestion b1 e1 none).add_criteria defaultArgHeap .FACTUAL 1
          = .ok h1
        ∧ (mkShortAnswerQuestion b2 e2 none).rubricSize h1 = 1
        ∧ (mkShortAnswerQuestion b2 e2 none).serializeAt h1
            ≠ (mkShortAnswerQuestion b2 e2 none).serializeAt defaultArgHeap := by
  refine ⟨rfl, rfl,
    ⟨⟨[⟨[(.FACTUAL, ⟨.FACTUAL, 1⟩)], .CUSTOM_RUBRIC⟩]⟩, rfl, rfl, ?_⟩⟩
  intro hcon
  simp [SAQRef.serializeAt, rubricJson, Rubric.serialize, Heap.get,
    defaultArgHeap, mkShortAnswerQuestion, defaultArgRef, Rubric.empty] at hcon
